import Mathlib

/-!
Shallow embedding of the History-network JSON-RPC dispatch layer of trin
(file trin-history/src/jsonrpc.rs).  Each endpoint function there only
pattern-matches on the results of its external calls (content-store reads and
writes, overlay transport round trips), so every endpoint is translated as a
pure Lean function of those results.  Byte strings are modelled as lists of
naturals, 256-bit identifiers (node ids, content ids, radii) as naturals.
-/

namespace Trin

/-- A byte string (Rust Vec of u8). -/
abbrev Bytes := List Nat

/-- A node record (ENR); the dispatch layer uses only its node id. -/
structure Enr where
  nodeId : Nat
deriving DecidableEq

/-- A history content key; the dispatch layer uses it only as a store key and
through content_id (the one-way map from key to 256-bit content id), so it is
modelled by its content id. -/
structure HistoryContentKey where
  id : Nat
deriving DecidableEq

/-- The content id of a key (in the source a hash of the key's bytes; here the
key is modelled by its id). -/
def HistoryContentKey.content_id (k : HistoryContentKey) : Nat := k.id

/-- A history content value; its SSZ encoding (ContentValue::encode, external
library code) is modelled by the byte image carried in the structure. -/
structure HistoryContentValue where
  bytes : Bytes
deriving DecidableEq

/-- ContentValue::encode from ethportal-api: the value's SSZ byte image. -/
def HistoryContentValue.encode (v : HistoryContentValue) : Bytes := v.bytes

/-- Lower-case hexadecimal digit for a value below 16. -/
def hexDigit (n : Nat) : Char :=
  if n < 10 then Char.ofNat (48 + n) else Char.ofNat (87 + n)

/-- Two hexadecimal digits for one byte. -/
def byteToHex (b : Nat) : List Char :=
  [hexDigit (b / 16 % 16), hexDigit (b % 16)]

/-- Embedding of trin_utils::bytes::hex_encode: the 0x-prefixed lower-case
hexadecimal rendering of a byte string. -/
def hex_encode (bytes : Bytes) : String :=
  "0x" ++ String.mk (bytes.foldr (fun b acc => byteToHex b ++ acc) [])

/-- Embedding of trin_types::constants::CONTENT_ABSENT, the sentinel string
returned when content is absent. -/
def CONTENT_ABSENT : String := "0x"

/-- Modelled from the spec: trin_types::query_trace::QueryTrace is not under
src/.  Per the spec a trace is created per lookup from the query target and
the local node, and finally records whether the responder was local or remote;
receivedFrom is the node that responded with the content, none when no peer
responded. -/
structure QueryTrace where
  origin : Enr
  targetId : Nat
  receivedFrom : Option Enr
deriving DecidableEq

/-- Embedding of QueryTrace::new: a fresh trace for a target with no responder
recorded yet. -/
def QueryTrace.new (local_enr : Enr) (target : Nat) : QueryTrace :=
  { origin := local_enr, targetId := target, receivedFrom := none }

/-- Embedding of QueryTrace::node_responded_with_content: record the node that
responded with the content. -/
def QueryTrace.node_responded_with_content (t : QueryTrace) (enr : Enr) :
    QueryTrace :=
  { t with receivedFrom := some enr }

/-- The Accept message returned by the overlay offer calls: the bitlist of
accepted content keys. -/
structure Accept where
  content_keys : List Bool
deriving DecidableEq

/-- The Pong message returned by overlay.send_ping: the peer's 64-bit ENR
sequence number, and the peer's advertised data radius carried in the pong's
custom payload (the dispatch code reads only enr_seq). -/
structure Pong where
  enr_seq : Nat
  custom_payload_radius : Nat
deriving DecidableEq

/-- The serde_json::Value shapes produced by the handler: plain strings and
booleans, and the json! renderings of TraceContentInfo, PongInfo, AcceptInfo
and an ENR list. -/
inductive JsonValue where
  | str (s : String)
  | bool (b : Bool)
  | traceInfo (content : String) (trace : QueryTrace)
  | pongInfo (enr_seq : Nat) (data_radius : Nat)
  | acceptInfo (content_keys : List Bool)
  | enrList (nodes : List Enr)
deriving DecidableEq

/-- Embedding of trin_types::distance::XorMetric::distance: bitwise XOR of the
two 256-bit ids, read as an unsigned integer. -/
def XorMetric.distance (a b : Nat) : Nat := a ^^^ b

/-- Embedding of recursive_find_content (jsonrpc.rs lines 86-136).  storeGet
is the result of overlay.store.read().get(content_key); lookupResult is the
value of overlay.lookup_content(content_key, is_trace), consulted only on a
local miss.  On a local store read error the source logs the error and
proceeds with None; on a local hit it builds the trace itself from the local
ENR.  In the traced success arm the source deserializes the content string
through serde_json::from_value, which on a JSON string succeeds and is
modelled as the identity. -/
def recursive_find_content (localEnr : Enr) (content_key : HistoryContentKey)
    (storeGet : Except String (Option Bytes))
    (lookupResult : Option Bytes × Option QueryTrace)
    (is_trace : Bool) : Except String JsonValue :=
  let local_content : Option Bytes :=
    match storeGet with
    | .ok (some data) => some data
    | .ok none => none
    | .error _ => none
  let res : Option Bytes × Option QueryTrace :=
    match local_content with
    | some val =>
        let trace :=
          (QueryTrace.new localEnr content_key.content_id).node_responded_with_content
            localEnr
        (some val, if is_trace then some trace else none)
    | none => lookupResult
  let content_response_string : String :=
    match res.1 with
    | some bytes => hex_encode bytes
    | none => CONTENT_ABSENT
  if ! is_trace then
    .ok (.str content_response_string)
  else
    match res.2 with
    | some trace => .ok (.traceInfo content_response_string trace)
    | none => .error ("Content query trace requested but none provided.")

/-- Embedding of local_content (jsonrpc.rs lines 139-159).  storeGet is the
result of store.read().get(content_key); the Debug rendering of the key in the
error message is modelled by the decimal rendering of its id. -/
def local_content (content_key : HistoryContentKey)
    (storeGet : Except String (Option Bytes)) : Except String JsonValue :=
  match storeGet with
  | .ok (some val) => .ok (.str (hex_encode val))
  | .ok none => .ok (.str CONTENT_ABSENT)
  | .error err =>
      .error ("Database error while looking for content key in local storage: "
        ++ toString content_key.id ++ ", with error: " ++ err)

/-- Embedding of store (jsonrpc.rs lines 179-194).  The source encodes the
value and calls store.write().put(content_key, data); putRes is that call's
result.  Note the error arm returns Ok(Value::String(msg)). -/
def store (content_value : HistoryContentValue)
    (putRes : Except String Unit) : Except String JsonValue :=
  let _data := content_value.encode
  match putRes with
  | .ok _ => .ok (.bool true)
  | .error msg => .ok (.str msg)

/-- Embedding of offer (jsonrpc.rs lines 243-270), instrumented with the
number of transport round trips performed (the second component).
sendPopulated is the result of overlay.send_populated_offer, sendOffer that of
overlay.send_offer; a populated offer (Some content value) awaits exactly the
former once, a key-only offer exactly the latter once. -/
def offer (content_value : Option HistoryContentValue)
    (sendPopulated : Except String Accept)
    (sendOffer : Except String Accept) : Except String JsonValue × Nat :=
  match content_value with
  | some _ =>
      match sendPopulated with
      | .ok accept => (.ok (.acceptInfo accept.content_keys), 1)
      | .error msg => (.error ("Populated Offer request timeout: " ++ msg), 1)
  | none =>
      match sendOffer with
      | .ok accept => (.ok (.acceptInfo accept.content_keys), 1)
      | .error msg => (.error ("Offer request timeout: " ++ msg), 1)

/-- Embedding of ping (jsonrpc.rs lines 273-285).  sendPing is the result of
overlay.send_ping(enr); localDataRadius is the dereferenced value of
overlay.data_radius(), the LOCAL node's radius, which is what the source
places into PongInfo.data_radius; the cast of pong.enr_seq from u64 to u32
truncates modulo 2^32. -/
def ping (localDataRadius : Nat) (sendPing : Except String Pong) :
    Except String JsonValue :=
  match sendPing with
  | .ok pong => .ok (.pongInfo (pong.enr_seq % 2 ^ 32) localDataRadius)
  | .error msg => .error ("Ping request timeout: " ++ msg)

/-- The comparator used by recursive_find_nodes: ascending XOR distance to the
target id. -/
def distLe (target : Nat) (a b : Enr) : Bool :=
  decide (XorMetric.distance target a.nodeId ≤ XorMetric.distance target b.nodeId)

/-- Embedding of recursive_find_nodes (jsonrpc.rs lines 288-301).  nodes is
the list returned by overlay.lookup_node(node_id); the dispatch sorts it by
XOR distance to the target (Rust sort_by, a stable merge sort) and keeps the
first 16. -/
def recursive_find_nodes (node_id : Nat) (nodes : List Enr) :
    Except String JsonValue :=
  let sorted := nodes.mergeSort (distLe node_id)
  .ok (.enrList (sorted.take 16))

/-- Modelled from the spec: overlay.lookup_content (the Lookup Engine) is not
under src/.  Per the spec, a find-content lookup over a fully empty candidate
set (no known peers, no local hit) returns the absent/empty result and, if
traced, a trace with no responding peer. -/
def lookup_content_empty (localEnr : Enr) (target : Nat)
    (is_trace : Bool) : Option Bytes × Option QueryTrace :=
  (none, if is_trace then some (QueryTrace.new localEnr target) else none)

/-- Modelled from the spec: overlay.lookup_node (the Lookup Engine's
find-nodes lookup) is not under src/.  Per the spec its terminal result is up
to 16 peers, sorted ascending by distance to the target, deduplicated; this
predicate captures that contract for a result list. -/
def lookupNodeContract (target : Nat) (nodes : List Enr) : Prop :=
  nodes.length ≤ 16 ∧
  nodes.Pairwise (fun a b =>
    XorMetric.distance target a.nodeId ≤ XorMetric.distance target b.nodeId) ∧
  (nodes.map Enr.nodeId).Nodup

/-- Modelled from the spec: the Content Store collaborator (consumed
interface: get by key, put of key and value) is not under src/; a store state
is a finite map from keys to byte strings. -/
def StoreMap := HistoryContentKey → Option Bytes

/-- Store put: map the key to the byte string. -/
def StoreMap.put (s : StoreMap) (k : HistoryContentKey) (v : Bytes) : StoreMap :=
  fun q => if q = k then some v else s q

/-- Store get: look the key up. -/
def StoreMap.get (s : StoreMap) (k : HistoryContentKey) : Option Bytes := s k

/-- C1: the claim says a successful ping returns the PEER's advertised radius;
the source instead fills PongInfo.data_radius from overlay.data_radius(), the
local node's own radius.  Concretely: the peer's pong carries radius 5 while
the local radius is 7, and the returned PongInfo holds 7. -/
theorem ping_reports_local_radius_not_peer_radius :
    ping 7 (.ok { enr_seq := 1, custom_payload_radius := 5 }) =
      .ok (.pongInfo 1 7) ∧ (5 : Nat) ≠ 7 :=
  ⟨rfl, by decide⟩

/-- C2 counterexample: a store-put failure is returned as a SUCCESS value
carrying the error message, and a store-read failure inside recursive
find-content is swallowed (the call succeeds with the absent sentinel), both
contradicting the claim that store errors are always surfaced as errors. -/
theorem store_error_swallowed_counterexample :
    store { bytes := [0] } (.error ("disk full")) = .ok (.str ("disk full")) ∧
    recursive_find_content { nodeId := 0 } { id := 0 } (.error ("disk full"))
      (none, none) false = .ok (.str ("0x")) :=
  ⟨rfl, rfl⟩

/-- C2 amended: only the local-content endpoint surfaces a store read failure
as an error with key context; the local-store check inside recursive
find-content proceeds exactly as if the key were absent locally; the store-put
endpoint maps a put failure to a success value carrying the error message. -/
theorem store_error_surfacing (k : HistoryContentKey) (e : String)
    (localEnr : Enr) (lookupResult : Option Bytes × Option QueryTrace)
    (v : HistoryContentValue) (is_trace : Bool) :
    local_content k (.error e) =
      .error ("Database error while looking for content key in local storage: "
        ++ toString k.id ++ ", with error: " ++ e) ∧
    recursive_find_content localEnr k (.error e) lookupResult is_trace =
      recursive_find_content localEnr k (.ok none) lookupResult is_trace ∧
    store v (.error e) = .ok (.str e) :=
  ⟨rfl, rfl, rfl⟩

/-- C3: in a traced recursive find-content call whose network lookup yields
content but no trace, the call returns an error, whether the local store check
reported a miss or failed; the combination of found content and a missing
trace is never a success.  (A local hit always produces a trace itself.) -/
theorem recursive_find_content_found_without_trace_is_error (localEnr : Enr)
    (k : HistoryContentKey) (v : Bytes) (e : String) :
    recursive_find_content localEnr k (.ok none) (some v, none) true =
      .error ("Content query trace requested but none provided.") ∧
    recursive_find_content localEnr k (.error e) (some v, none) true =
      .error ("Content query trace requested but none provided.") :=
  ⟨rfl, rfl⟩

/-- C4: on a local store hit, recursive find-content returns the stored bytes
for EVERY possible network lookup result (so the network is never consulted),
and in the traced case the trace records the local node as the responder with
the content. -/
theorem recursive_find_content_local_hit (localEnr : Enr)
    (k : HistoryContentKey) (v : Bytes)
    (lookupResult : Option Bytes × Option QueryTrace) :
    recursive_find_content localEnr k (.ok (some v)) lookupResult false =
      .ok (.str (hex_encode v)) ∧
    recursive_find_content localEnr k (.ok (some v)) lookupResult true =
      .ok (.traceInfo (hex_encode v)
        { origin := localEnr, targetId := k.content_id,
          receivedFrom := some localEnr }) :=
  ⟨rfl, rfl⟩

/-- C5: under the Lookup Engine's contract on the node list it hands back,
recursive find-nodes returns at most 16 peers, sorted in non-decreasing XOR
distance to the target, with no duplicate node ids. -/
theorem recursive_find_nodes_spec (node_id : Nat) (nodes : List Enr)
    (h : lookupNodeContract node_id nodes) :
    ∃ l, recursive_find_nodes node_id nodes = .ok (.enrList l) ∧
      l.length ≤ 16 ∧
      l.Pairwise (fun a b =>
        XorMetric.distance node_id a.nodeId ≤ XorMetric.distance node_id b.nodeId) ∧
      (l.map Enr.nodeId).Nodup := by
  refine ⟨(nodes.mergeSort (distLe node_id)).take 16, rfl,
    List.length_take_le 16 _, ?_, ?_⟩
  · have htrans : ∀ a b c : Enr, distLe node_id a b = true →
        distLe node_id b c = true → distLe node_id a c = true := by
      intro a b c hab hbc
      simp only [distLe, decide_eq_true_eq] at hab hbc ⊢
      exact le_trans hab hbc
    have htotal : ∀ a b : Enr,
        (distLe node_id a b || distLe node_id b a) = true := by
      intro a b
      simp only [distLe, Bool.or_eq_true, decide_eq_true_eq]
      exact Nat.le_total _ _
    have hs := @List.sorted_mergeSort Enr (distLe node_id) htrans htotal nodes
    have hs2 : (nodes.mergeSort (distLe node_id)).Pairwise (fun a b =>
        XorMetric.distance node_id a.nodeId ≤
          XorMetric.distance node_id b.nodeId) := by
      refine hs.imp ?_
      intro a b hab
      simpa [distLe] using hab
    exact List.Pairwise.sublist (List.take_sublist 16 _) hs2
  · have hperm : (nodes.mergeSort (distLe node_id)).Perm nodes :=
      List.mergeSort_perm nodes (distLe node_id)
    have hnd : ((nodes.mergeSort (distLe node_id)).map Enr.nodeId).Nodup :=
      ((hperm.map Enr.nodeId).nodup_iff).mpr h.2.2
    exact List.Nodup.sublist
      (List.Sublist.map Enr.nodeId (List.take_sublist 16 _)) hnd

/-- C5 witness: the contract and the conclusion hold at a concrete two-node
input. -/
theorem recursive_find_nodes_spec_witness :
    lookupNodeContract 0 [{ nodeId := 1 }, { nodeId := 2 }] ∧
    (∃ l, recursive_find_nodes 0 [{ nodeId := 1 }, { nodeId := 2 }] =
        .ok (.enrList l) ∧
      l.length ≤ 16 ∧
      l.Pairwise (fun a b =>
        XorMetric.distance 0 a.nodeId ≤ XorMetric.distance 0 b.nodeId) ∧
      (l.map Enr.nodeId).Nodup) :=
  ⟨⟨by decide, by decide, by decide⟩,
    recursive_find_nodes_spec 0 [{ nodeId := 1 }, { nodeId := 2 }]
      ⟨by decide, by decide, by decide⟩⟩

/-- C6: with no local hit and the Lookup Engine's empty-candidate result,
recursive find-content succeeds with the absent sentinel; in the traced case
it succeeds with the sentinel and a trace that records no responding peer. -/
theorem recursive_find_content_empty_candidates (localEnr : Enr)
    (k : HistoryContentKey) :
    recursive_find_content localEnr k (.ok none)
        (lookup_content_empty localEnr k.content_id false) false =
      .ok (.str CONTENT_ABSENT) ∧
    recursive_find_content localEnr k (.ok none)
        (lookup_content_empty localEnr k.content_id true) true =
      .ok (.traceInfo CONTENT_ABSENT (QueryTrace.new localEnr k.content_id)) ∧
    (QueryTrace.new localEnr k.content_id).receivedFrom = none :=
  ⟨rfl, rfl, rfl⟩

/-- C7: for both offer entry points, a transport timeout is returned to the
caller as an error, and exactly one transport round trip is performed (no
implicit retry). -/
theorem offer_timeout_error_single_send (v : HistoryContentValue) (m : String)
    (other : Except String Accept) :
    offer (some v) (.error m) other =
      (.error ("Populated Offer request timeout: " ++ m), 1) ∧
    offer none other (.error m) =
      (.error ("Offer request timeout: " ++ m), 1) :=
  ⟨rfl, rfl⟩

/-- C8: a successful store of a value followed immediately by a local-content
read of the same key returns the stored value verbatim through the
encode-on-store and hex-encode-on-read path. -/
theorem store_then_local_content_roundtrip (s : StoreMap)
    (k : HistoryContentKey) (v : HistoryContentValue) :
    store v (.ok ()) = .ok (.bool true) ∧
    StoreMap.get (StoreMap.put s k v.encode) k = some v.encode ∧
    local_content k (.ok (StoreMap.get (StoreMap.put s k v.encode) k)) =
      .ok (.str (hex_encode v.encode)) := by
  refine ⟨rfl, ?_, ?_⟩ <;>
    simp [StoreMap.get, StoreMap.put, local_content]

/-- C9: whenever tracing is requested and the lookup yields no trace, the call
errors for EVERY content outcome of the lookup, in particular when the content
is absent. -/
theorem recursive_find_content_missing_trace_error_even_when_absent
    (localEnr : Enr) (k : HistoryContentKey) (c : Option Bytes) :
    recursive_find_content localEnr k (.ok none) (c, none) true =
      .error ("Content query trace requested but none provided.") := by
  cases c <;> rfl

/-- C10: in every successful ping response the peer's 64-bit sequence number
is narrowed to 32 bits: the reported enr_seq equals the true sequence number
modulo 2^32. -/
theorem ping_enr_seq_truncated_mod_2_32 (localDataRadius seq prad : Nat) :
    ping localDataRadius (.ok { enr_seq := seq, custom_payload_radius := prad }) =
      .ok (.pongInfo (seq % 2 ^ 32) localDataRadius) :=
  rfl

end Trin
